import Mathlib

set_option autoImplicit false

/-!
A shallow embedding of the Z-Wave host driver core
(`packages/zwave-js/src/lib/driver/Driver.ts`) and proofs about its
message-unwrapping, wake-up queueing, error handling, transport-service
session management and option validation.
-/

namespace ZWaveDriver

/-! ## Basic enumerations

`CommandClasses`, `MessagePriority`, `NodeStatus`, `ZWaveErrorCodes` and
`MessageHeaders` mirror the enums referenced by `Driver.ts`. Only the
members the driver core uses are modelled; `other n` stands for the
remaining members. -/

inductive CommandClasses where
  | Supervision
  | Security2
  | Security
  | CRC16Encapsulation
  | MultiChannel
  | MultiCommand
  | TransportService
  | WakeUp
  | NoOperation
  | Basic
  | other (n : Nat)
  deriving DecidableEq

inductive MessagePriority where
  | Nonce
  | Supervision
  | Controller
  | Ping
  | MultistepController
  | Handshake
  | PreTransmitHandshake
  | NodeQuery
  | Normal
  | Poll
  | WakeUp
  deriving DecidableEq

inductive NodeStatus where
  | Unknown
  | Asleep
  | Awake
  | Dead
  | Alive
  deriving DecidableEq

inductive ZWaveErrorCodes where
  | PacketFormat_Invalid
  | PacketFormat_Checksum
  | PacketFormat_Truncated
  | PacketFormat_InvalidPayload
  | Deserialization_NotImplemented
  | CC_NotImplemented
  | CC_NotSupported
  | Driver_NotReady
  | Driver_NoSecurity
  | Driver_NoPriority
  | Driver_InvalidOptions
  | Security2CC_NotInitialized
  | Security2CC_NoSPAN
  | Security2CC_CannotDecode
  | Controller_MessageDropped
  | Controller_CallbackNOK
  | Controller_ResponseNOK
  | Controller_NodeTimeout
  | Controller_NodeRemoved
  | other (n : Nat)
  deriving DecidableEq

inductive MessageHeaders where
  | ACK
  | NAK
  | CAN
  deriving DecidableEq

/-- Modelled from the spec: the `encapsulation_flags` bitmask recording which
wrappers have been applied (Supervision, Security, CRC16, Multi-Channel).
The `EncapsulationFlags` enum itself lives in the `@zwave-js/core` package,
outside the given source; each bit is modelled as a named boolean. -/
structure EncapsulationFlags where
  supervision : Bool
  security : Bool
  crc16 : Bool
  multiChannel : Bool
  deriving DecidableEq

/-- The all-clear bitmask (`EncapsulationFlags.None`). -/
def noFlags : EncapsulationFlags :=
  { supervision := false, security := false, crc16 := false, multiChannel := false }

/-! ## Command classes as trees

A `CC` is a command-class PDU: a leaf, a (single-)encapsulating CC holding
one inner command (`isEncapsulatingCommandClass`), or a multi-encapsulating
CC holding a list of inner commands (`isMultiEncapsulatingCommandClass`,
e.g. Multi Command). Every node carries its `ccId` and its
`encapsulationFlags`. -/

inductive CC where
  | leaf (ccId : CommandClasses) (encapsulationFlags : EncapsulationFlags)
  | encap (ccId : CommandClasses) (encapsulationFlags : EncapsulationFlags)
      (encapsulated : CC)
  | multiEncap (ccId : CommandClasses) (encapsulationFlags : EncapsulationFlags)
      (encapsulated : List CC)

/-- The `encapsulationFlags` of the root node of a command. -/
def CC.flags : CC → EncapsulationFlags
  | .leaf _ f => f
  | .encap _ f _ => f
  | .multiEncap _ f _ => f

/-- Source `isEncapsulatingCommandClass cc || isMultiEncapsulatingCommandClass cc`:
the condition of the `while` loop in `Driver.unwrapCommands`. -/
def CC.isAnyEncapsulating : CC → Bool
  | .leaf _ _ => false
  | .encap _ _ _ => true
  | .multiEncap _ _ _ => true

/-- The `switch (msg.command.ccId)` in `Driver.unwrapCommands`
(Driver.ts:3731-3751): after copying the outer command's flags onto the
unwrapped inner command, OR in the flag that corresponds to the outer
wrapper. Supervision sets `Supervision`, Security 2 and Security both set
`Security`, CRC-16 Encapsulation sets `CRC16`; every other `ccId` falls
through the `switch` and contributes nothing. -/
def setUnwrapEncapsulationFlag (outerCCId : CommandClasses)
    (f : EncapsulationFlags) : EncapsulationFlags :=
  match outerCCId with
  | .Supervision => { f with supervision := true }
  | .Security2 => { f with security := true }
  | .Security => { f with security := true }
  | .CRC16Encapsulation => { f with crc16 := true }
  | _ => f

/-- The loop body of `Driver.unwrapCommands` once at least one wrapper has
been stripped: `flags` is the value that was assigned to the current
command's `encapsulationFlags` when it was unwrapped into. A leaf ends the
loop; a multi-encapsulating command's `encapsulated` is an array, so the
message is logged and discarded (second component `true`) with the wrapper
still in place; a single-encapsulating command copies its (updated) flags
onto the inner command, ORs in its own wrapper flag and continues. -/
def unwrapFrom (flags : EncapsulationFlags) : CC → CC × Bool
  | .leaf c _ => (.leaf c flags, false)
  | .multiEncap c _ l => (.multiEncap c flags l, true)
  | .encap c _ inner => unwrapFrom (setUnwrapEncapsulationFlag c flags) inner

/-- Source `Driver.unwrapCommands` (Driver.ts:3714-3755), as a function from the
inbound message's command to the final `msg.command` plus a flag telling
whether the "multiple CommandClasses ... Discarding the message" warning
was logged. The original command keeps its own `encapsulationFlags` as the
seed; each stripped wrapper overwrites the inner command's flags with the
running value and ORs in its own contribution. -/
def unwrapCommands : CC → CC × Bool
  | .leaf c f => (.leaf c f, false)
  | .multiEncap c f l => (.multiEncap c f l, true)
  | .encap c f inner => unwrapFrom (setUnwrapEncapsulationFlag c f) inner

/-- Builds a stack of single-encapsulating wrappers (outermost first) around
a core command. -/
def wrapStack : List (CommandClasses × EncapsulationFlags) → CC → CC
  | [], core => core
  | (c, f) :: rest, core => .encap c f (wrapStack rest core)

/-- The flags accumulated by unwrapping the given wrapper ccIds
(outermost first) starting from a seed bitmask. -/
def accumFlags (ids : List CommandClasses) (seed : EncapsulationFlags) :
    EncapsulationFlags :=
  ids.foldl (fun g c => setUnwrapEncapsulationFlag c g) seed

theorem unwrapFrom_wrapStack (ws : List (CommandClasses × EncapsulationFlags))
    (g : EncapsulationFlags) (id : CommandClasses) (lf : EncapsulationFlags) :
    unwrapFrom g (wrapStack ws (.leaf id lf))
      = (.leaf id (accumFlags (ws.map Prod.fst) g), false) := by
  induction ws generalizing g with
  | nil => rfl
  | cons hd tl ih =>
      cases hd with
      | mk c f => simpa [wrapStack, unwrapFrom, accumFlags] using ih _

theorem unwrapFrom_logged : ∀ (cc : CC) (g : EncapsulationFlags),
    (unwrapFrom g cc).2 = true →
    ∃ c f l, (unwrapFrom g cc).1 = CC.multiEncap c f l
  | .leaf _ _, _, h => by simp [unwrapFrom] at h
  | .multiEncap c _ l, g, _ => ⟨c, g, l, rfl⟩
  | .encap c _ inner, g, h =>
      unwrapFrom_logged inner (setUnwrapEncapsulationFlag c g) h

/-- C1, as stated, fails at a Multi-Channel wrapper: unwrapping
`MultiChannelCCCommandEncapsulation(BasicCC)` where no flags are set yields
the inner command with an all-clear bitmask — the `switch` in
`unwrapCommands` has no Multi-Channel case, so no flag is ORed in for the
stripped Multi-Channel wrapper, contradicting the claim that the flag
corresponding to every stripped wrapper (including Multi-Channel) is set. -/
theorem unwrapCommands_multiChannel_no_flag :
    (unwrapCommands (CC.encap CommandClasses.MultiChannel noFlags
        (CC.leaf CommandClasses.Basic noFlags)))
      = (CC.leaf CommandClasses.Basic noFlags, false)
    ∧ noFlags.multiChannel = false := by
  exact ⟨rfl, rfl⟩

/-- C1 (amended): `unwrapCommands` unwraps outermost-to-innermost; the inner
command's `encapsulation_flags` end up as the outermost command's flags with
the contribution of each stripped wrapper ORed in, where Supervision
contributes the Supervision flag, Security and Security 2 the Security
flag, CRC-16 the CRC16 flag, and every other wrapper — Multi-Channel
included — contributes nothing. -/
theorem unwrapCommands_accumulates_flags (c0 : CommandClasses)
    (f0 : EncapsulationFlags) (ws : List (CommandClasses × EncapsulationFlags))
    (id : CommandClasses) (lf : EncapsulationFlags) :
    unwrapCommands (wrapStack ((c0, f0) :: ws) (CC.leaf id lf))
      = (CC.leaf id (accumFlags (c0 :: ws.map Prod.fst) f0), false) := by
  simp [wrapStack, unwrapCommands, unwrapFrom_wrapStack, accumFlags]

/-- A Multi Command wrapper holding two inner commands. -/
def multiCommandExample : CC :=
  CC.multiEncap CommandClasses.MultiCommand noFlags
    [CC.leaf CommandClasses.Basic noFlags,
     CC.leaf CommandClasses.NoOperation noFlags]

/-- C2, as stated, fails: on a Multi Command wrapper `unwrapCommands` logs
the warning and returns with the wrapper still in place as `msg.command` —
the first inner command (`BasicCC`) is *not* extracted for further
processing. -/
theorem unwrapCommands_multiCommand_keeps_wrapper :
    (unwrapCommands multiCommandExample).2 = true
    ∧ (unwrapCommands multiCommandExample).1 = multiCommandExample
    ∧ (unwrapCommands multiCommandExample).1
        ≠ CC.leaf CommandClasses.Basic noFlags := by
  refine ⟨rfl, rfl, fun h => CC.noConfusion h⟩

/-- C2 (amended): whenever `unwrapCommands` logs the
"multiple CommandClasses ... Discarding the message" warning, unwrapping
stops with the multi-encapsulating wrapper itself left as the message's
command; no inner command — not even the first — is extracted. -/
theorem unwrapCommands_rejects_multiEncap (cc : CC)
    (h : (unwrapCommands cc).2 = true) :
    ∃ c f l, (unwrapCommands cc).1 = CC.multiEncap c f l := by
  cases cc with
  | leaf c f => simp [unwrapCommands] at h
  | multiEncap c f l => exact ⟨c, f, l, rfl⟩
  | encap c f inner => exact unwrapFrom_logged inner _ h

/-- Witness for `unwrapCommands_rejects_multiEncap` at the concrete
Multi Command example. -/
theorem unwrapCommands_rejects_multiEncap_witness :
    (unwrapCommands multiCommandExample).2 = true
    ∧ ∃ c f l, (unwrapCommands multiCommandExample).1 = CC.multiEncap c f l :=
  ⟨rfl, unwrapCommands_rejects_multiEncap multiCommandExample rfl⟩

/-! ## Messages and transactions

The send scheduler enqueues `Transaction`s whose head `Message` the driver
inspects only through a handful of discriminators: `getNodeId()`,
`messageIsPing` (a command-class container holding a `NoOperationCC`),
`isCommandClassContainer`, `isNodeQuery`, `isSendData` and
`instanceof` tests against specific command classes. The discriminators
are modelled by a message kind and a command discriminator. -/

inductive MessageKind where
  | sendDataRequest
  | sendDataBridgeRequest
  | nodeQueryRequest (n : Nat)
  | otherMessage (n : Nat)
  deriving DecidableEq

/-- What `msg.command` is, as far as the driver core inspects it.
`notAContainer` means `isCommandClassContainer(msg)` is false. -/
inductive MsgCommand where
  | notAContainer
  | noOperation
  | wakeUpNoMoreInformation
  | security2NonceReport
  | otherCC (n : Nat)
  deriving DecidableEq

structure Message where
  nodeId : Option Nat
  kind : MessageKind
  command : MsgCommand
  maxSendAttempts : Nat
  deriving DecidableEq

/-- Source `isCommandClassContainer(msg)`. -/
def isCommandClassContainer (m : Message) : Bool :=
  match m.command with
  | .notAContainer => false
  | _ => true

/-- Source `messageIsPing(msg)`: a command-class container holding `NoOperationCC`. -/
def messageIsPing (m : Message) : Bool :=
  match m.command with
  | .noOperation => true
  | _ => false

/-- Source `isNodeQuery(msg)`: the message addresses a node directly
(`INodeQuery`); SendData requests and node-query requests qualify. -/
def isNodeQuery (m : Message) : Bool :=
  match m.kind with
  | .sendDataRequest => true
  | .sendDataBridgeRequest => true
  | .nodeQueryRequest _ => true
  | .otherMessage _ => false

structure Transaction where
  message : Message
  priority : MessagePriority
  tag : Option String
  changeNodeStatusOnTimeout : Bool
  deriving DecidableEq

/-- Modelled from the spec: the reducer result type
`{keep | drop | reject(err) | requeue(new_priority, new_tag?) | resolve(value)}`
of the scheduler's reducer model (§4.1). The concrete type lives in the
send thread machine outside the given source; all variants except `drop`
appear literally at the reducer call sites in `Driver.ts`, and `resolve` is
only ever used with `message: undefined` there, so it carries no payload. -/
inductive TransactionReducerResult where
  | keep
  | drop
  | reject (message : String) (code : ZWaveErrorCodes)
  | requeue (priority : Option MessagePriority) (tag : Option String)
  | resolve
  deriving DecidableEq

/-- Modelled from the spec: how the scheduler applies one reducer result to
a queued transaction (§4.1). `keep` retains it unchanged; `requeue` retains
it with the new priority and tag where given; `drop`, `reject` and
`resolve` all remove it from the queue (silently dropped, rejected with an
error, or settled successfully without being sent). -/
def applyReducerResult (t : Transaction) :
    TransactionReducerResult → Option Transaction
  | .keep => some t
  | .drop => none
  | .reject _ _ => none
  | .requeue p tag =>
      some { t with
        priority := p.getD t.priority
        tag := match tag with | some tg => some tg | none => t.tag }
  | .resolve => none

/-- Modelled from the spec: a reducer is applied to every queued
transaction against a consistent snapshot (§5 ordering guarantees). -/
def reduceQueue (reducer : Transaction → TransactionReducerResult)
    (queue : List Transaction) : List Transaction :=
  queue.filterMap (fun t => applyReducerResult t (reducer t))

/-- Source `Driver.mayMoveToWakeupQueue` (Driver.ts:4321-4337): pings,
Nonce-priority and Supervision-priority transactions,
`WakeUpCCNoMoreInformation` commands and `"compat"`-tagged transactions are
not allowed into the wakeup queue. -/
def mayMoveToWakeupQueue (transaction : Transaction) : Bool :=
  if messageIsPing transaction.message then false
  else if transaction.priority = MessagePriority.Nonce then false
  else if transaction.priority = MessagePriority.Supervision then false
  else if isCommandClassContainer transaction.message
      && transaction.message.command = MsgCommand.wakeUpNoMoreInformation then false
  else if transaction.tag = some "compat" then false
  else true

/-- The reducer built by `Driver.moveMessagesToWakeupQueue`
(Driver.ts:4340-4369): keep other nodes' transactions; reject what may not
move to the wakeup queue; requeue `NodeQuery`-priority transactions at
`WakeUp` priority tagged `"interview"`; requeue everything else at `WakeUp`
priority. -/
def moveMessagesToWakeupQueueReducer (nodeId : Nat)
    (transaction : Transaction) : TransactionReducerResult :=
  if transaction.message.nodeId ≠ some nodeId then .keep
  else if mayMoveToWakeupQueue transaction then
    if transaction.priority = MessagePriority.NodeQuery then
      .requeue (some MessagePriority.WakeUp) (some "interview")
    else
      .requeue (some MessagePriority.WakeUp) none
  else
    .reject "The node is asleep" ZWaveErrorCodes.Controller_MessageDropped

/-- The reducer sent by `Driver.onNodeWakeUp` (Driver.ts:1535-1559) when a
node transitions `Asleep→Awake`: keep other nodes' messages, resolve pings
for this node (it is known awake, so they need not be sent), and requeue
every other transaction for this node without changing priority or tag. -/
def onNodeWakeUpReducer (nodeId : Nat)
    (transaction : Transaction) : TransactionReducerResult :=
  if transaction.message.nodeId ≠ some nodeId then .keep
  else if messageIsPing transaction.message then .resolve
  else .requeue none none

/-- A `"compat"`-tagged, `Normal`-priority, non-ping transaction for node 5. -/
def compatTransaction : Transaction :=
  { message :=
      { nodeId := some 5
        kind := .sendDataRequest
        command := .otherCC 0
        maxSendAttempts := 3 }
    priority := MessagePriority.Normal
    tag := some "compat"
    changeNodeStatusOnTimeout := true }

/-- C3, as stated, fails at a `"compat"`-tagged transaction: it is neither a
ping, nor Nonce- or Supervision-priority, nor a `WakeUpCCNoMoreInformation`,
so the claim requires it to be requeued at `WakeUp` priority — but the
asleep reducer rejects it. -/
theorem moveToWakeup_rejects_compat :
    moveMessagesToWakeupQueueReducer 5 compatTransaction
      = TransactionReducerResult.reject "The node is asleep"
          ZWaveErrorCodes.Controller_MessageDropped
    ∧ moveMessagesToWakeupQueueReducer 5 compatTransaction
        ≠ TransactionReducerResult.requeue (some MessagePriority.WakeUp) none := by
  constructor
  · rfl
  · intro h
    exact TransactionReducerResult.noConfusion h

/-- C3 (amended): the `Awake→Asleep` reducer keeps other nodes'
transactions; rejects (with `Controller_MessageDropped`, "The node is
asleep") pings, Nonce-priority and Supervision-priority transactions,
`WakeUpNoMoreInformation` commands *and transactions tagged `"compat"`*;
requeues `NodeQuery`-priority transactions at `WakeUp` priority tagged
`"interview"`; and requeues every other transaction for the node at
`WakeUp` priority. -/
theorem moveToWakeup_classifies (nodeId : Nat) (t : Transaction) :
    moveMessagesToWakeupQueueReducer nodeId t =
      if t.message.nodeId ≠ some nodeId then
        TransactionReducerResult.keep
      else if messageIsPing t.message = true ∨ t.priority = MessagePriority.Nonce
          ∨ t.priority = MessagePriority.Supervision
          ∨ t.message.command = MsgCommand.wakeUpNoMoreInformation
          ∨ t.tag = some "compat" then
        TransactionReducerResult.reject "The node is asleep"
          ZWaveErrorCodes.Controller_MessageDropped
      else if t.priority = MessagePriority.NodeQuery then
        TransactionReducerResult.requeue (some MessagePriority.WakeUp)
          (some "interview")
      else
        TransactionReducerResult.requeue (some MessagePriority.WakeUp) none := by
  rcases t with ⟨⟨nid, kind, cmd⟩, prio, tag, cns⟩
  by_cases hn : nid = some nodeId
  · by_cases htag : tag = some "compat" <;>
      cases cmd <;> cases prio <;>
        simp_all [moveMessagesToWakeupQueueReducer, mayMoveToWakeupQueue,
          messageIsPing, isCommandClassContainer]
  · simp [moveMessagesToWakeupQueueReducer, hn]

/-- A queued ping (`NoOperationCC`) for node 5. -/
def pingTransaction : Transaction :=
  { message :=
      { nodeId := some 5
        kind := .sendDataRequest
        command := .noOperation
        maxSendAttempts := 3 }
    priority := MessagePriority.Ping
    tag := none
    changeNodeStatusOnTimeout := true }

/-- C4, as stated, fails at a pending ping: the `Asleep→Awake` reducer
*resolves* it (its promise fulfils with `undefined`, the ping counts as
successful without being sent) rather than dropping it. -/
theorem onNodeWakeUp_resolves_ping :
    onNodeWakeUpReducer 5 pingTransaction = TransactionReducerResult.resolve
    ∧ onNodeWakeUpReducer 5 pingTransaction ≠ TransactionReducerResult.drop := by
  constructor
  · rfl
  · intro h
    exact TransactionReducerResult.noConfusion h

/-- C4 (amended): when a node transitions `Asleep→Awake` the reducer leaves
every non-ping transaction in the queue unchanged — same priority (so it
stays ahead of the `WakeUp` band), same tag, same queue order — for this
node and all others, while pings for the node leave the queue because they
are *resolved* (settled successfully without being sent). -/
theorem onNodeWakeUp_requeues_and_resolves_pings (nodeId : Nat)
    (q : List Transaction) :
    reduceQueue (onNodeWakeUpReducer nodeId) q
        = q.filter
            (fun t => !(t.message.nodeId == some nodeId && messageIsPing t.message))
    ∧ ∀ t ∈ q, t.message.nodeId = some nodeId → messageIsPing t.message = true →
        onNodeWakeUpReducer nodeId t = TransactionReducerResult.resolve := by
  constructor
  · induction q with
    | nil => rfl
    | cons t rest ih =>
        by_cases hn : t.message.nodeId = some nodeId
        · by_cases hp : messageIsPing t.message = true
          · simp [reduceQueue, List.filterMap_cons, List.filter_cons,
              onNodeWakeUpReducer, applyReducerResult, hn, hp] at ih ⊢
            exact ih
          · simp [reduceQueue, List.filterMap_cons, List.filter_cons,
              onNodeWakeUpReducer, applyReducerResult, hn, hp] at ih ⊢
            exact ih
        · simp [reduceQueue, List.filterMap_cons, List.filter_cons,
            onNodeWakeUpReducer, applyReducerResult, hn] at ih ⊢
          exact ih
  · intro t _ h1 h2
    simp [onNodeWakeUpReducer, h1, h2]

/-- Witness for `onNodeWakeUp_requeues_and_resolves_pings` at a singleton
queue holding a ping for node 5. -/
theorem onNodeWakeUp_requeues_witness :
    reduceQueue (onNodeWakeUpReducer 5) [pingTransaction]
        = List.filter
            (fun t => !(t.message.nodeId == some 5 && messageIsPing t.message))
            [pingTransaction]
    ∧ onNodeWakeUpReducer 5 pingTransaction = TransactionReducerResult.resolve :=
  ⟨(onNodeWakeUp_requeues_and_resolves_pings 5 [pingTransaction]).1,
   (onNodeWakeUp_requeues_and_resolves_pings 5 [pingTransaction]).2
     pingTransaction (List.mem_singleton.mpr rfl) (by decide) (by decide)⟩

/-! ## Missing node ACK handling (SendData callback NOK)

`Driver.isMissingNodeACK` and `Driver.handleMissingNodeACK`
(Driver.ts:2954-3008), together with the queue effects they trigger via
`node.markAsAsleep()` → `sleep` event → `onNodeSleep` →
`moveMessagesToWakeupQueue` and via `rejectAllTransactionsForNode`. -/

/-- The node state the driver core reads (`ZWaveNode` itself is outside the
given source). -/
structure NodeState where
  id : Nat
  canSleep : Bool
  status : NodeStatus
  deriving DecidableEq

/-- Source `isSendData(msg)`: the message is a `SendDataRequest` or
`SendDataBridgeRequest`. -/
def isSendData (m : Message) : Bool :=
  match m.kind with
  | .sendDataRequest => true
  | .sendDataBridgeRequest => true
  | _ => false

/-- Source `Driver.isMissingNodeACK` (Driver.ts:2954-2966): the transaction failed
with `Controller_CallbackNOK` and its message is a SendData request. -/
def isMissingNodeACK (transaction : Transaction) (e : ZWaveErrorCodes) : Bool :=
  (e = ZWaveErrorCodes.Controller_CallbackNOK : Bool) && isSendData transaction.message

/-- Source `Driver.rejectTransactions` (Driver.ts:4375-4393) as the reducer it
builds: reject matching transactions, keep the rest. -/
def rejectTransactionsReducer (predicate : Transaction → Bool)
    (errorMsg : String) (errorCode : ZWaveErrorCodes)
    (transaction : Transaction) : TransactionReducerResult :=
  if predicate transaction then .reject errorMsg errorCode else .keep

/-- Source `Driver.rejectAllTransactionsForNode` (Driver.ts:4399-4409): reject all
transactions addressing the node, by default with
`Controller_MessageDropped`. -/
def rejectAllTransactionsForNodeReducer (nodeId : Nat) (errorMsg : String) :
    Transaction → TransactionReducerResult :=
  rejectTransactionsReducer (fun t => t.message.nodeId == some nodeId)
    errorMsg ZWaveErrorCodes.Controller_MessageDropped

/-- The error message built in `handleMissingNodeACK`
(Driver.ts:2981-2983, 3000). -/
def missingNodeACKErrorMessage (m : Message) : String :=
  (if isSendData m then
    "The node did not respond after " ++ toString m.maxSendAttempts ++ " attempts"
   else "The node did not respond") ++ ", it is presumed dead"

/-- Modelled from the spec: `node.markAsAsleep()` (the `ZWaveNode` class is
outside the given source) sets the node status to `Asleep`; the
`Awake→Asleep` transition — a status change — fires the `sleep` event,
whose handler `onNodeSleep` (Driver.ts:1562-1573) runs
`moveMessagesToWakeupQueue` for the node. -/
def markAsAsleepStep (node : NodeState) (queue : List Transaction) :
    NodeState × List Transaction :=
  if node.status ≠ NodeStatus.Asleep then
    ({ node with status := NodeStatus.Asleep },
     reduceQueue (moveMessagesToWakeupQueueReducer node.id) queue)
  else (node, queue)

/-- Source `Driver.handleMissingNodeACK` (Driver.ts:2973-3008) for a known node,
together with the effects it triggers on the node status and the queue.
The `Bool` is the handler's return value: `true` means the failed
transaction was handled (moved to the wakeup queue), `false` that the
caller must reject it. -/
def handleMissingNodeACKStep (node : NodeState) (queue : List Transaction)
    (transaction : Transaction) : NodeState × List Transaction × Bool :=
  if !transaction.changeNodeStatusOnTimeout then (node, queue, false)
  else if node.canSleep then
    let moved := markAsAsleepStep node queue
    (moved.1, moved.2, mayMoveToWakeupQueue transaction)
  else
    ({ node with status := NodeStatus.Dead },
     reduceQueue (rejectAllTransactionsForNodeReducer node.id
       (missingNodeACKErrorMessage transaction.message)) queue,
     false)

theorem reduceQueue_rejectAllForNode (nodeId : Nat) (errorMsg : String)
    (q : List Transaction) :
    reduceQueue (rejectAllTransactionsForNodeReducer nodeId errorMsg) q
      = q.filter (fun t => !(t.message.nodeId == some nodeId)) := by
  induction q with
  | nil => rfl
  | cons t rest ih =>
      by_cases h : t.message.nodeId = some nodeId <;>
        simp_all [reduceQueue, rejectAllTransactionsForNodeReducer,
          rejectTransactionsReducer, applyReducerResult, List.filter_cons]

theorem moveToWakeup_survivors_wakeup_priority (nodeId : Nat)
    (q : List Transaction) (t : Transaction)
    (ht : t ∈ reduceQueue (moveMessagesToWakeupQueueReducer nodeId) q)
    (hn : t.message.nodeId = some nodeId) :
    t.priority = MessagePriority.WakeUp := by
  simp only [reduceQueue, List.mem_filterMap] at ht
  obtain ⟨s, _, happ⟩ := ht
  by_cases h1 : s.message.nodeId = some nodeId
  · by_cases h2 : mayMoveToWakeupQueue s = true
    · by_cases h3 : s.priority = MessagePriority.NodeQuery <;>
        · simp [moveMessagesToWakeupQueueReducer, h1, h2, h3,
            applyReducerResult] at happ
          subst happ
          rfl
    · simp [moveMessagesToWakeupQueueReducer, h1, h2,
        applyReducerResult] at happ
  · simp [moveMessagesToWakeupQueueReducer, h1, applyReducerResult] at happ
    subst happ
    exact absurd hn h1

/-- C5: for a SendData transaction with `changeNodeStatusOnTimeout` that
failed with a controller callback NOK (`isMissingNodeACK`) on a node not
already asleep, the handler marks the node `Asleep` and moves its messages
to the wakeup queue (every surviving transaction for the node now has
`WakeUp` priority) when the node can sleep; otherwise it marks the node
`Dead` and rejects all pending transactions for the node. -/
theorem missingNodeACK_asleep_or_dead (node : NodeState)
    (q : List Transaction) (t : Transaction) (e : ZWaveErrorCodes)
    (_hmiss : isMissingNodeACK t e = true)
    (hchange : t.changeNodeStatusOnTimeout = true)
    (hstatus : node.status ≠ NodeStatus.Asleep) :
    (node.canSleep = true →
        (handleMissingNodeACKStep node q t).1.status = NodeStatus.Asleep
      ∧ (handleMissingNodeACKStep node q t).2.1
          = reduceQueue (moveMessagesToWakeupQueueReducer node.id) q
      ∧ ∀ tr ∈ (handleMissingNodeACKStep node q t).2.1,
          tr.message.nodeId = some node.id → tr.priority = MessagePriority.WakeUp)
    ∧ (node.canSleep = false →
        (handleMissingNodeACKStep node q t).1.status = NodeStatus.Dead
      ∧ (handleMissingNodeACKStep node q t).2.1
          = q.filter (fun tr => !(tr.message.nodeId == some node.id))) := by
  constructor
  · intro hsleep
    have hstep : handleMissingNodeACKStep node q t
        = ({ node with status := NodeStatus.Asleep },
           reduceQueue (moveMessagesToWakeupQueueReducer node.id) q,
           mayMoveToWakeupQueue t) := by
      simp [handleMissingNodeACKStep, markAsAsleepStep, hchange, hsleep, hstatus]
    refine ⟨by simp [hstep], by simp [hstep], ?_⟩
    intro tr htr hnid
    rw [hstep] at htr
    exact moveToWakeup_survivors_wakeup_priority node.id q tr htr hnid
  · intro hsleep
    have hstep : handleMissingNodeACKStep node q t
        = ({ node with status := NodeStatus.Dead },
           reduceQueue (rejectAllTransactionsForNodeReducer node.id
             (missingNodeACKErrorMessage t.message)) q,
           false) := by
      simp [handleMissingNodeACKStep, hchange, hsleep]
    refine ⟨by simp [hstep], ?_⟩
    rw [hstep]
    exact reduceQueue_rejectAllForNode node.id _ q

/-- An awake, battery-powered node with id 5. -/
def awakeNode5 : NodeState := { id := 5, canSleep := true, status := NodeStatus.Awake }

/-- Witness for `missingNodeACK_asleep_or_dead`: a failed SendData
transaction for the sleep-capable awake node 5 marks it asleep. -/
theorem missingNodeACK_asleep_or_dead_witness :
    (handleMissingNodeACKStep awakeNode5 [compatTransaction]
        compatTransaction).1.status = NodeStatus.Asleep :=
  ((missingNodeACK_asleep_or_dead awakeNode5 [compatTransaction]
      compatTransaction ZWaveErrorCodes.Controller_CallbackNOK
      (by decide) (by decide) (by decide)).1 rfl).1

/-! ## S2 decode errors

`Driver.handleSecurityS2DecodeError` (Driver.ts:2849-2951). The inputs the
function reads from the driver (controller nodes, security manager, send
thread) are gathered in a context record; the queue and active set are kept
as transaction lists so that "a pending S2 NonceReport transaction" is the
real `hasPendingTransactions` check. -/

inductive KEXFailType where
  | BootstrappingCanceled
  | other (n : Nat)
  deriving DecidableEq

/-- Source `Driver.hasPendingTransactions` (Driver.ts:2056-2064): the predicate
holds for some queued or active transaction. -/
def hasPendingTransactions (predicate : Transaction → Bool)
    (queue activeTransactions : List Transaction) : Bool :=
  queue.any predicate || activeTransactions.any predicate

/-- The `isS2NonceReport` predicate built in `handleSecurityS2DecodeError`
(Driver.ts:2881-2884). -/
def isS2NonceReport (nodeId : Nat) (t : Transaction) : Bool :=
  t.message.nodeId == some nodeId && isCommandClassContainer t.message
    && (t.message.command = MsgCommand.security2NonceReport : Bool)

/-- What the driver reads while handling an S2 decode error. -/
structure S2DecodeErrorContext where
  errorCode : ZWaveErrorCodes
  msgIsCCContainer : Bool
  nodeId : Nat
  nodeKnown : Bool
  interviewStageBeforeNodeInfo : Bool
  bootstrappingS2NodeId : Option Nat
  tempKeyInstalled : Bool
  spanStateIsNone : Bool
  queue : List Transaction
  activeTransactions : List Transaction

/-- The externally visible effects of `handleSecurityS2DecodeError`. -/
structure S2DecodeErrorOutcome where
  handled : Bool
  wroteACK : Bool
  markedS2Supported : Bool
  sentNonceReport : Bool
  canceledBootstrap : Option KEXFailType
  deriving DecidableEq

/-- Source `Driver.handleSecurityS2DecodeError` (Driver.ts:2849-2951). Returns
`handled = false` when the error is not `NoSPAN`/`CannotDecode`, the
message is not a CC container, or the node is unknown. Otherwise ACKs the
command; marks Security S2 supported when the interview has not reached
`NodeInfo`; then: node mid-bootstrap with a temporary key and SPAN state
`None` → send our nonce; mid-bootstrap with a temporary key and any other
SPAN state → cancel bootstrapping with `BootstrappingCanceled`;
mid-bootstrap without a temporary key → ignore; not mid-bootstrap → send
our nonce unless an S2 NonceReport transaction for the node is already
pending. -/
def handleSecurityS2DecodeError (ctx : S2DecodeErrorContext) :
    S2DecodeErrorOutcome :=
  if ¬((ctx.errorCode = ZWaveErrorCodes.Security2CC_NoSPAN
        ∨ ctx.errorCode = ZWaveErrorCodes.Security2CC_CannotDecode)
      ∧ ctx.msgIsCCContainer = true) then
    { handled := false, wroteACK := false, markedS2Supported := false
      sentNonceReport := false, canceledBootstrap := none }
  else if ¬ctx.nodeKnown then
    { handled := false, wroteACK := false, markedS2Supported := false
      sentNonceReport := false, canceledBootstrap := none }
  else
    let marked := ctx.interviewStageBeforeNodeInfo
    if ctx.bootstrappingS2NodeId = some ctx.nodeId then
      if ctx.tempKeyInstalled then
        if ctx.spanStateIsNone then
          { handled := true, wroteACK := true, markedS2Supported := marked
            sentNonceReport := true, canceledBootstrap := none }
        else
          { handled := true, wroteACK := true, markedS2Supported := marked
            sentNonceReport := false
            canceledBootstrap := some KEXFailType.BootstrappingCanceled }
      else
        { handled := true, wroteACK := true, markedS2Supported := marked
          sentNonceReport := false, canceledBootstrap := none }
    else if ¬hasPendingTransactions (isS2NonceReport ctx.nodeId)
        ctx.queue ctx.activeTransactions then
      { handled := true, wroteACK := true, markedS2Supported := marked
        sentNonceReport := true, canceledBootstrap := none }
    else
      { handled := true, wroteACK := true, markedS2Supported := marked
        sentNonceReport := false, canceledBootstrap := none }

/-- C6: on an S2 decode error (`NoSPAN` or `CannotDecode`) for a known
node, the driver ACKs on the wire; when the node is not mid-bootstrap it
sends an S2 Nonce Report exactly when no S2 NonceReport transaction for the
node is already pending (a second failure in the same window does not
enqueue another); when the node is mid-bootstrap with a temporary key and a
SPAN state other than `None`, it cancels bootstrapping with
`KEXFailType.BootstrappingCanceled`. -/
theorem s2DecodeError_ack_nonce_abort (ctx : S2DecodeErrorContext)
    (herr : ctx.errorCode = ZWaveErrorCodes.Security2CC_NoSPAN
      ∨ ctx.errorCode = ZWaveErrorCodes.Security2CC_CannotDecode)
    (hcc : ctx.msgIsCCContainer = true)
    (hknown : ctx.nodeKnown = true) :
    (handleSecurityS2DecodeError ctx).wroteACK = true
    ∧ (handleSecurityS2DecodeError ctx).handled = true
    ∧ (ctx.bootstrappingS2NodeId ≠ some ctx.nodeId →
        (handleSecurityS2DecodeError ctx).sentNonceReport
            = !hasPendingTransactions (isS2NonceReport ctx.nodeId)
                ctx.queue ctx.activeTransactions
        ∧ (handleSecurityS2DecodeError ctx).canceledBootstrap = none)
    ∧ (ctx.bootstrappingS2NodeId = some ctx.nodeId →
        ctx.tempKeyInstalled = true → ctx.spanStateIsNone = false →
        (handleSecurityS2DecodeError ctx).canceledBootstrap
          = some KEXFailType.BootstrappingCanceled) := by
  have hok : ¬¬((ctx.errorCode = ZWaveErrorCodes.Security2CC_NoSPAN
      ∨ ctx.errorCode = ZWaveErrorCodes.Security2CC_CannotDecode)
      ∧ ctx.msgIsCCContainer = true) := not_not_intro ⟨herr, hcc⟩
  refine ⟨?_, ?_, ?_, ?_⟩
  · by_cases hboot : ctx.bootstrappingS2NodeId = some ctx.nodeId <;>
      by_cases htmp : ctx.tempKeyInstalled = true <;>
      by_cases hspan : ctx.spanStateIsNone = true <;>
      by_cases hpend : hasPendingTransactions (isS2NonceReport ctx.nodeId)
        ctx.queue ctx.activeTransactions = true <;>
      simp_all [handleSecurityS2DecodeError]
  · by_cases hboot : ctx.bootstrappingS2NodeId = some ctx.nodeId <;>
      by_cases htmp : ctx.tempKeyInstalled = true <;>
      by_cases hspan : ctx.spanStateIsNone = true <;>
      by_cases hpend : hasPendingTransactions (isS2NonceReport ctx.nodeId)
        ctx.queue ctx.activeTransactions = true <;>
      simp_all [handleSecurityS2DecodeError]
  · intro hboot
    by_cases hpend : hasPendingTransactions (isS2NonceReport ctx.nodeId)
        ctx.queue ctx.activeTransactions = true <;>
      simp_all [handleSecurityS2DecodeError]
  · intro hboot htmp hspan
    simp_all [handleSecurityS2DecodeError]

/-- The context of scenario 4 of the spec: an S2 command from node 9 with
no established SPAN, nothing pending, node not being bootstrapped. -/
def noSPANNode9 : S2DecodeErrorContext :=
  { errorCode := ZWaveErrorCodes.Security2CC_NoSPAN
    msgIsCCContainer := true
    nodeId := 9
    nodeKnown := true
    interviewStageBeforeNodeInfo := false
    bootstrappingS2NodeId := none
    tempKeyInstalled := false
    spanStateIsNone := true
    queue := []
    activeTransactions := [] }

/-- Witness for `s2DecodeError_ack_nonce_abort` at the concrete no-SPAN
context for node 9. -/
theorem s2DecodeError_ack_nonce_abort_witness :
    (handleSecurityS2DecodeError noSPANNode9).wroteACK = true
    ∧ (handleSecurityS2DecodeError noSPANNode9).sentNonceReport
        = !hasPendingTransactions (isS2NonceReport noSPANNode9.nodeId)
            noSPANNode9.queue noSPANNode9.activeTransactions :=
  ⟨(s2DecodeError_ack_nonce_abort noSPANNode9 (Or.inl rfl) rfl rfl).1,
   ((s2DecodeError_ack_nonce_abort noSPANNode9 (Or.inl rfl) rfl rfl).2.2.1
     (by decide)).1⟩

/-! ## Decode errors

`Driver.handleDecodeError` (Driver.ts:2765-2847) chooses the wire reply for
a message that failed to decode, and rethrows anything it does not
recognise; the enclosing `try`/`catch` in the serial data handler
(Driver.ts:2589-2655) catches such a rethrown error, logs it and drops the
message, so nothing propagates past the dispatcher. -/

/-- The error handed to `handleDecodeError`: a `ZWaveError` with its code, a
non-ZWaveError whose message matches `/database is not open/`, or any other
non-ZWaveError. -/
inductive DecodeError where
  | zwave (code : ZWaveErrorCodes)
  | databaseNotOpen
  | otherError
  deriving DecidableEq

inductive DecodeErrorDisposition where
  | reply (header : MessageHeaders)
  | rethrow
  deriving DecidableEq

/-- Source `Driver.handleDecodeError` (Driver.ts:2765-2847): NAK for the
frame-level packet-format errors; ACK for failed deserialization,
not-implemented CCs, driver-not-ready, invalid payloads, missing security
and the not-yet-open JSONL database; everything else is rethrown. -/
def handleDecodeError : DecodeError → DecodeErrorDisposition
  | .zwave c =>
      match c with
      | .PacketFormat_Invalid => .reply .NAK
      | .PacketFormat_Checksum => .reply .NAK
      | .PacketFormat_Truncated => .reply .NAK
      | .Deserialization_NotImplemented => .reply .ACK
      | .CC_NotImplemented => .reply .ACK
      | .Driver_NotReady => .reply .ACK
      | .PacketFormat_InvalidPayload => .reply .ACK
      | .Driver_NoSecurity => .reply .ACK
      | .Security2CC_NotInitialized => .reply .ACK
      | _ => .rethrow
  | .databaseNotOpen => .reply .ACK
  | .otherError => .rethrow

/-- What the serial data handler does with a decode error after
`handleDecodeError`: a chosen reply is written and the message dropped; a
rethrown error is caught by the surrounding `catch` (Driver.ts:2642-2652),
logged, and the message dropped. -/
inductive DispatcherDecodeOutcome where
  | repliedAndDropped (header : MessageHeaders)
  | loggedAndDropped
  deriving DecidableEq

/-- The serial data handler's disposal of a decode error
(Driver.ts:2589-2655). -/
def dispatchDecodeError (e : DecodeError) : DispatcherDecodeOutcome :=
  match handleDecodeError e with
  | .reply h => .repliedAndDropped h
  | .rethrow => .loggedAndDropped

/-- C7: the reply is NAK exactly for the frame-level errors
(`PacketFormat_Invalid`, `PacketFormat_Checksum`, `PacketFormat_Truncated`);
the CC-level errors (`Deserialization_NotImplemented`, `CC_NotImplemented`,
`PacketFormat_InvalidPayload` and the similar ACK-then-drop codes) get ACK;
and every decode error ends in a reply-and-drop or a logged drop — none
propagates past the dispatcher. -/
theorem decodeError_reply_choice (c : ZWaveErrorCodes) :
    (handleDecodeError (.zwave c) = .reply .NAK ↔
      c = ZWaveErrorCodes.PacketFormat_Invalid
      ∨ c = ZWaveErrorCodes.PacketFormat_Checksum
      ∨ c = ZWaveErrorCodes.PacketFormat_Truncated)
    ∧ ((c = ZWaveErrorCodes.Deserialization_NotImplemented
        ∨ c = ZWaveErrorCodes.CC_NotImplemented
        ∨ c = ZWaveErrorCodes.PacketFormat_InvalidPayload
        ∨ c = ZWaveErrorCodes.Driver_NotReady
        ∨ c = ZWaveErrorCodes.Driver_NoSecurity
        ∨ c = ZWaveErrorCodes.Security2CC_NotInitialized) →
      handleDecodeError (.zwave c) = .reply .ACK)
    ∧ (∀ e : DecodeError,
        (∃ h, dispatchDecodeError e = .repliedAndDropped h)
        ∨ dispatchDecodeError e = .loggedAndDropped) := by
  refine ⟨?_, ?_, ?_⟩
  · cases c <;> simp [handleDecodeError]
  · intro hc
    rcases hc with h | h | h | h | h | h <;> subst h <;> rfl
  · intro e
    cases e with
    | zwave c2 =>
        cases hd : handleDecodeError (.zwave c2) with
        | reply h => exact Or.inl ⟨h, by simp [dispatchDecodeError, hd]⟩
        | rethrow => exact Or.inr (by simp [dispatchDecodeError, hd])
    | databaseNotOpen => exact Or.inl ⟨.ACK, rfl⟩
    | otherError => exact Or.inr rfl

/-- Witness for `decodeError_reply_choice`: a checksum error is answered
with NAK, an unimplemented CC with ACK. -/
theorem decodeError_reply_choice_witness :
    handleDecodeError (.zwave ZWaveErrorCodes.PacketFormat_Checksum)
        = .reply .NAK
    ∧ handleDecodeError (.zwave ZWaveErrorCodes.CC_NotImplemented)
        = .reply .ACK :=
  ⟨(decodeError_reply_choice ZWaveErrorCodes.PacketFormat_Checksum).1.mpr
      (Or.inr (Or.inl rfl)),
   (decodeError_reply_choice ZWaveErrorCodes.CC_NotImplemented).2.1
      (Or.inr (Or.inl rfl))⟩

/-! ## Transport Service RX sessions

`Driver.handleTransportServiceCommand` (Driver.ts:3137-3247). A session
stores the fragment size and the `numSegments` the RX state machine was
created with; the per-node `transportService` map is modelled as an
association list. -/

structure TransportSession where
  fragmentSize : Nat
  numSegments : Nat
  deriving DecidableEq

inductive TSCommand where
  | firstSegment (sessionId datagramSize partialDatagramLength : Nat)
  | subsequentSegment (sessionId datagramOffset : Nat)
  deriving DecidableEq

/-- The outward effect of handling one Transport Service command:
a (re)started RX session (`stoppedPrevious` = an existing interpreter was
stopped), a segment index forwarded to the running state machine, or a
`SegmentWait` sent back for an unknown session. -/
inductive TSEffect where
  | sessionStarted (sessionId : Nat) (stoppedPrevious : Bool)
  | forwardedSegment (sessionId index : Nat)
  | sentSegmentWait (sessionId : Nat)
  deriving DecidableEq

def lookupSession (sessions : List (Nat × TransportSession))
    (sessionId : Nat) : Option TransportSession :=
  (sessions.find? (fun p => p.1 == sessionId)).map Prod.snd

/-- Source `Driver.handleTransportServiceCommand` (Driver.ts:3137-3247). On a
`FirstSegment`, stop any existing session's interpreter, clear the node's
whole session map, and store a fresh session keyed by the segment's session
id with `fragmentSize = partialDatagram.length` and
`numSegments = Math.ceil(datagramSize / partialDatagram.length)`. On a
`SubsequentSegment`, forward index
`Math.floor(datagramOffset / fragmentSize)` to the existing session's state
machine, or send a `SegmentWait` when no session is known. -/
def handleTransportServiceCommand (sessions : List (Nat × TransportSession)) :
    TSCommand → List (Nat × TransportSession) × TSEffect
  | .firstSegment sessionId datagramSize partialDatagramLength =>
      ([(sessionId,
          { fragmentSize := partialDatagramLength
            numSegments :=
              (datagramSize + partialDatagramLength - 1) / partialDatagramLength })],
       .sessionStarted sessionId ((lookupSession sessions sessionId).isSome))
  | .subsequentSegment sessionId datagramOffset =>
      match lookupSession sessions sessionId with
      | some s =>
          (sessions, .forwardedSegment sessionId (datagramOffset / s.fragmentSize))
      | none => (sessions, .sentSegmentWait sessionId)

/-- C8: a `FirstSegment` (re)initialises the RX session for its session id
with `num_segments = ⌈datagram_size / fragment_size⌉` where the fragment
size is the first segment's partial-datagram length, implicitly closing
every previously known session (the new map holds nothing else); a
`SubsequentSegment` for a known session forwards segment index
`⌊datagram_offset / fragment_size⌋` to that session's state machine. -/
theorem transportService_sessions (sessions : List (Nat × TransportSession))
    (sid dsize plen : Nat) (_hp : 0 < plen) :
    (lookupSession
        (handleTransportServiceCommand sessions (.firstSegment sid dsize plen)).1 sid
      = some { fragmentSize := plen, numSegments := dsize ⌈/⌉ plen })
    ∧ (handleTransportServiceCommand sessions (.firstSegment sid dsize plen)).2
        = .sessionStarted sid ((lookupSession sessions sid).isSome)
    ∧ (∀ sid2, sid2 ≠ sid →
        lookupSession
          (handleTransportServiceCommand sessions (.firstSegment sid dsize plen)).1 sid2
          = none)
    ∧ (∀ off s, lookupSession sessions sid = some s →
        handleTransportServiceCommand sessions (.subsequentSegment sid off)
          = (sessions, .forwardedSegment sid (off / s.fragmentSize))) := by
  refine ⟨?_, rfl, ?_, ?_⟩
  · simp [handleTransportServiceCommand, lookupSession,
      Nat.ceilDiv_eq_add_pred_div]
  · intro sid2 hne
    have hbe : (sid == sid2) = false :=
      beq_eq_false_iff_ne.mpr (fun h => hne h.symm)
    simp [handleTransportServiceCommand, lookupSession, List.find?, hbe]
  · intro off s hs
    simp [handleTransportServiceCommand, hs]

/-- Witness for `transportService_sessions` at scenario 3 of the spec:
`FirstSegment(session 7, size 140, fragment 40)` on an empty session map
yields a session with 4 segments. -/
theorem transportService_sessions_witness :
    lookupSession
        (handleTransportServiceCommand [] (.firstSegment 7 140 40)).1 7
      = some { fragmentSize := 40, numSegments := (140 : Nat) ⌈/⌉ 40 } :=
  (transportService_sessions [] 7 140 40 (by decide)).1

/-! ## Driver option validation

`checkOptions` (Driver.ts:250-358). Numeric options are JS numbers used in
integer comparisons, modelled as `Int`; a security key buffer is its list
of bytes; `inclusionUserCallbacks` is modelled as a record telling which of
its three members are functions. -/

structure Timeouts where
  ack : Int
  byte : Int
  response : Int
  report : Int
  nonce : Int
  sendDataCallback : Int
  serialAPIStarted : Int
  deriving DecidableEq

structure Attempts where
  openSerialPort : Int
  controller : Int
  sendData : Int
  nodeInterview : Int
  deriving DecidableEq

structure InclusionUserCallbacks where
  grantSecurityClassesIsFunction : Bool
  validateDSKAndEnterPINIsFunction : Bool
  abortIsFunction : Bool
  deriving DecidableEq

structure ZWaveOptions where
  timeouts : Timeouts
  attempts : Attempts
  securityKeys : Option (List (String × List Nat))
  inclusionUserCallbacks : Option InclusionUserCallbacks
  deriving DecidableEq

/-- Source `MAX_SEND_ATTEMPTS`, imported by `Driver.ts` from the SendData message
module (outside the given source); its value there is 5. The claims only
relate `checkOptions` to the same constant. -/
def MAX_SEND_ATTEMPTS : Int := 5

structure ZWaveErr where
  message : String
  code : ZWaveErrorCodes
  deriving DecidableEq

/-- The `securityKeys` loop of `checkOptions` (Driver.ts:296-313): for each
entry in order, throw when the key is not exactly 16 bytes, then throw when
an earlier entry used an equal key (`keys.findIndex(([, k]) => k.equals(key))
!== i`); `seen` carries the keys of the earlier entries. -/
def checkSecurityKeys : List (List Nat) → List (String × List Nat) →
    Except ZWaveErr Unit
  | _, [] => .ok ()
  | seen, (secClass, key) :: rest =>
      if key.length ≠ 16 then
        .error { message := "The security key for class " ++ secClass
                   ++ " must be a buffer with length 16!"
                 code := ZWaveErrorCodes.Driver_InvalidOptions }
      else if key ∈ seen then
        .error { message := "The security key for class " ++ secClass
                   ++ " was used multiple times!"
                 code := ZWaveErrorCodes.Driver_InvalidOptions }
      else checkSecurityKeys (seen ++ [key]) rest

/-- The checks of `checkOptions` that follow the `securityKeys` loop
(Driver.ts:314-358): attempts ranges and the `inclusionUserCallbacks`
shape. -/
def checkOptionsTail (options : ZWaveOptions) : Except ZWaveErr Unit :=
  if options.attempts.controller < 1 ∨ options.attempts.controller > 3 then
    .error { message := "The Controller attempts must be between 1 and 3!"
             code := ZWaveErrorCodes.Driver_InvalidOptions }
  else if options.attempts.sendData < 1
      ∨ options.attempts.sendData > MAX_SEND_ATTEMPTS then
    .error { message := "The SendData attempts must be between 1 and MAX_SEND_ATTEMPTS!"
             code := ZWaveErrorCodes.Driver_InvalidOptions }
  else if options.attempts.nodeInterview < 1
      ∨ options.attempts.nodeInterview > 10 then
    .error { message := "The Node interview attempts must be between 1 and 10!"
             code := ZWaveErrorCodes.Driver_InvalidOptions }
  else
    match options.inclusionUserCallbacks with
    | some cb =>
        if cb.grantSecurityClassesIsFunction = false
            ∨ cb.validateDSKAndEnterPINIsFunction = false
            ∨ cb.abortIsFunction = false then
          .error { message := "The inclusionUserCallbacks must contain the following functions: grantSecurityClasses, validateDSKAndEnterPIN, abort!"
                   code := ZWaveErrorCodes.Driver_InvalidOptions }
        else .ok ()
    | none => .ok ()

/-- Source `checkOptions` (Driver.ts:250-358): throw `Driver_InvalidOptions` at the
first out-of-range option, checking timeouts, then security keys, then
attempts, then the inclusion user callbacks. -/
def checkOptions (options : ZWaveOptions) : Except ZWaveErr Unit :=
  if options.timeouts.ack < 1 then
    .error { message := "The ACK timeout must be positive!"
             code := ZWaveErrorCodes.Driver_InvalidOptions }
  else if options.timeouts.byte < 1 then
    .error { message := "The BYTE timeout must be positive!"
             code := ZWaveErrorCodes.Driver_InvalidOptions }
  else if options.timeouts.response < 500 ∨ options.timeouts.response > 20000 then
    .error { message := "The Response timeout must be between 500 and 20000 milliseconds!"
             code := ZWaveErrorCodes.Driver_InvalidOptions }
  else if options.timeouts.report < 500 ∨ options.timeouts.report > 10000 then
    .error { message := "The Report timeout must be between 500 and 10000 milliseconds!"
             code := ZWaveErrorCodes.Driver_InvalidOptions }
  else if options.timeouts.nonce < 3000 ∨ options.timeouts.nonce > 20000 then
    .error { message := "The Nonce timeout must be between 3000 and 20000 milliseconds!"
             code := ZWaveErrorCodes.Driver_InvalidOptions }
  else if options.timeouts.sendDataCallback < 10000 then
    .error { message := "The Send Data Callback timeout must be at least 10000 milliseconds!"
             code := ZWaveErrorCodes.Driver_InvalidOptions }
  else if options.timeouts.serialAPIStarted < 1000
      ∨ options.timeouts.serialAPIStarted > 30000 then
    .error { message := "The Serial API started timeout must be between 1000 and 30000 milliseconds!"
             code := ZWaveErrorCodes.Driver_InvalidOptions }
  else
    match options.securityKeys with
    | some keys =>
        (checkSecurityKeys [] keys).bind (fun _ => checkOptionsTail options)
    | none => checkOptionsTail options

/-- The ranges `checkOptions` (Driver.ts:250-358) actually enforces,
written independently of it: every checked timeout and attempt count within
its range, every provided security key exactly 16 bytes and pairwise
distinct, and the three inclusion user callbacks all functions when
provided. `attempts.openSerialPort` does not appear here: `checkOptions`
never validates it. -/
def optionsWithinCheckedRanges (o : ZWaveOptions) : Prop :=
  1 ≤ o.timeouts.ack ∧ 1 ≤ o.timeouts.byte
  ∧ 500 ≤ o.timeouts.response ∧ o.timeouts.response ≤ 20000
  ∧ 500 ≤ o.timeouts.report ∧ o.timeouts.report ≤ 10000
  ∧ 3000 ≤ o.timeouts.nonce ∧ o.timeouts.nonce ≤ 20000
  ∧ 10000 ≤ o.timeouts.sendDataCallback
  ∧ 1000 ≤ o.timeouts.serialAPIStarted ∧ o.timeouts.serialAPIStarted ≤ 30000
  ∧ (∀ keys, o.securityKeys = some keys →
      (∀ e ∈ keys, e.2.length = 16)
      ∧ (keys.map Prod.snd).Pairwise (fun a b => a ≠ b))
  ∧ 1 ≤ o.attempts.controller ∧ o.attempts.controller ≤ 3
  ∧ 1 ≤ o.attempts.sendData ∧ o.attempts.sendData ≤ MAX_SEND_ATTEMPTS
  ∧ 1 ≤ o.attempts.nodeInterview ∧ o.attempts.nodeInterview ≤ 10
  ∧ (∀ cb, o.inclusionUserCallbacks = some cb →
      cb.grantSecurityClassesIsFunction = true
      ∧ cb.validateDSKAndEnterPINIsFunction = true
      ∧ cb.abortIsFunction = true)

/-- The documented ranges of §6 of the spec, in table order: every timeout
within its range, `attempts.openSerialPort ≥ 1` (the one documented numeric
range `checkOptions` never enforces), the remaining attempt counts within
range, every provided security key exactly 16 bytes and pairwise distinct,
and the three inclusion user callbacks all functions when provided. -/
def optionsWithinDocumentedRanges (o : ZWaveOptions) : Prop :=
  1 ≤ o.timeouts.ack ∧ 1 ≤ o.timeouts.byte
  ∧ 500 ≤ o.timeouts.response ∧ o.timeouts.response ≤ 20000
  ∧ 500 ≤ o.timeouts.report ∧ o.timeouts.report ≤ 10000
  ∧ 3000 ≤ o.timeouts.nonce ∧ o.timeouts.nonce ≤ 20000
  ∧ 10000 ≤ o.timeouts.sendDataCallback
  ∧ 1000 ≤ o.timeouts.serialAPIStarted ∧ o.timeouts.serialAPIStarted ≤ 30000
  ∧ 1 ≤ o.attempts.openSerialPort
  ∧ (∀ keys, o.securityKeys = some keys →
      (∀ e ∈ keys, e.2.length = 16)
      ∧ (keys.map Prod.snd).Pairwise (fun a b => a ≠ b))
  ∧ 1 ≤ o.attempts.controller ∧ o.attempts.controller ≤ 3
  ∧ 1 ≤ o.attempts.sendData ∧ o.attempts.sendData ≤ MAX_SEND_ATTEMPTS
  ∧ 1 ≤ o.attempts.nodeInterview ∧ o.attempts.nodeInterview ≤ 10
  ∧ (∀ cb, o.inclusionUserCallbacks = some cb →
      cb.grantSecurityClassesIsFunction = true
      ∧ cb.validateDSKAndEnterPINIsFunction = true
      ∧ cb.abortIsFunction = true)

theorem checkSecurityKeys_ok_iff (seen : List (List Nat))
    (ks : List (String × List Nat)) :
    checkSecurityKeys seen ks = .ok () ↔
      ((∀ e ∈ ks, e.2.length = 16)
        ∧ (ks.map Prod.snd).Pairwise (fun a b => a ≠ b)
        ∧ ∀ k ∈ ks.map Prod.snd, k ∉ seen) := by
  induction ks generalizing seen with
  | nil => simp [checkSecurityKeys]
  | cons e rest ih =>
      obtain ⟨secClass, key⟩ := e
      rw [checkSecurityKeys]
      by_cases hlen : key.length = 16
      · rw [if_neg (fun hc => hc hlen)]
        by_cases hmem : key ∈ seen
        · rw [if_pos hmem]
          constructor
          · intro h
            exact absurd h (by simp)
          · rintro ⟨-, -, hns⟩
            exact absurd hmem (hns key (by simp))
        · rw [if_neg hmem, ih]
          simp only [List.map_cons, List.pairwise_cons, List.mem_cons,
            List.mem_append, List.mem_singleton]
          constructor
          · rintro ⟨hl, hp, hns⟩
            refine ⟨?_, ⟨?_, hp⟩, ?_⟩
            · rintro e2 (rfl | he2)
              · exact hlen
              · exact hl e2 he2
            · intro k2 hk2 heq
              exact hns k2 hk2 (Or.inr (Or.inl heq.symm))
            · rintro k2 (rfl | hk2)
              · exact hmem
              · intro hk2seen
                exact hns k2 hk2 (Or.inl hk2seen)
          · rintro ⟨hl, ⟨hne, hp⟩, hns⟩
            refine ⟨fun e2 he2 => hl e2 (Or.inr he2), hp, ?_⟩
            rintro k2 hk2 (hseen | heq | hnil)
            · exact hns k2 (Or.inr hk2) hseen
            · exact hne k2 hk2 heq.symm
            · exact absurd hnil (List.not_mem_nil k2)
      · rw [if_pos hlen]
        constructor
        · intro h
          exact absurd h (by simp)
        · rintro ⟨hl, -, -⟩
          exact absurd (hl (secClass, key) (by simp)) hlen

theorem checkSecurityKeys_error_code (seen : List (List Nat))
    (ks : List (String × List Nat)) (err : ZWaveErr)
    (h : checkSecurityKeys seen ks = .error err) :
    err.code = ZWaveErrorCodes.Driver_InvalidOptions := by
  induction ks generalizing seen with
  | nil => simp [checkSecurityKeys] at h
  | cons e rest ih =>
      obtain ⟨secClass, key⟩ := e
      rw [checkSecurityKeys] at h
      by_cases hlen : key.length ≠ 16
      · rw [if_pos hlen] at h
        injection h with h2
        rw [← h2]
      · rw [if_neg hlen] at h
        by_cases hmem : key ∈ seen
        · rw [if_pos hmem] at h
          injection h with h2
          rw [← h2]
        · rw [if_neg hmem] at h
          exact ih _ h

theorem error_code_eq {m : String} {err : ZWaveErr}
    (h : (Except.error
        { message := m, code := ZWaveErrorCodes.Driver_InvalidOptions } :
        Except ZWaveErr Unit) = Except.error err) :
    err.code = ZWaveErrorCodes.Driver_InvalidOptions := by
  injection h with h2
  rw [← h2]

theorem bool_ne_false (b : Bool) (h : ¬b = false) : b = true := by
  cases b
  · exact absurd rfl h
  · rfl

theorem checkOptionsTail_ok_iff (o : ZWaveOptions) :
    checkOptionsTail o = .ok () ↔
      (1 ≤ o.attempts.controller ∧ o.attempts.controller ≤ 3
      ∧ 1 ≤ o.attempts.sendData ∧ o.attempts.sendData ≤ MAX_SEND_ATTEMPTS
      ∧ 1 ≤ o.attempts.nodeInterview ∧ o.attempts.nodeInterview ≤ 10
      ∧ ∀ cb, o.inclusionUserCallbacks = some cb →
          cb.grantSecurityClassesIsFunction = true
          ∧ cb.validateDSKAndEnterPINIsFunction = true
          ∧ cb.abortIsFunction = true) := by
  have hmax : MAX_SEND_ATTEMPTS = 5 := rfl
  obtain ⟨ts, ⟨aosp, actrl, asd, ani⟩, sk, cbs⟩ := o
  cases cbs with
  | none =>
      simp only [checkOptionsTail]
      split_ifs with g1 g2 g3
      · constructor
        · intro h
          exact absurd h (by simp)
        · rintro ⟨k1, k2, -⟩
          exfalso
          rcases g1 with g | g <;> omega
      · constructor
        · intro h
          exact absurd h (by simp)
        · rintro ⟨-, -, k3, k4, -⟩
          exfalso
          rcases g2 with g | g <;> omega
      · constructor
        · intro h
          exact absurd h (by simp)
        · rintro ⟨-, -, -, -, k5, k6, -⟩
          exfalso
          rcases g3 with g | g <;> omega
      · simp only [not_or, not_lt] at g1 g2 g3
        constructor
        · intro _
          refine ⟨by omega, by omega, by omega, by omega, by omega, by omega, ?_⟩
          intro cb2 hcb2
          exact absurd hcb2 (by simp)
        · intro _
          rfl
  | some cb =>
      simp only [checkOptionsTail]
      split_ifs with g1 g2 g3 g4
      · constructor
        · intro h
          exact absurd h (by simp)
        · rintro ⟨k1, k2, -⟩
          exfalso
          rcases g1 with g | g <;> omega
      · constructor
        · intro h
          exact absurd h (by simp)
        · rintro ⟨-, -, k3, k4, -⟩
          exfalso
          rcases g2 with g | g <;> omega
      · constructor
        · intro h
          exact absurd h (by simp)
        · rintro ⟨-, -, -, -, k5, k6, -⟩
          exfalso
          rcases g3 with g | g <;> omega
      · constructor
        · intro h
          exact absurd h (by simp)
        · rintro ⟨-, -, -, -, -, -, hcb⟩
          obtain ⟨b1, b2, b3⟩ := hcb cb rfl
          exfalso
          rcases g4 with g | g | g <;> simp_all
      · simp only [not_or, not_lt] at g1 g2 g3
        simp only [not_or] at g4
        constructor
        · intro _
          refine ⟨by omega, by omega, by omega, by omega, by omega, by omega, ?_⟩
          intro cb2 hcb2
          cases hcb2
          exact ⟨bool_ne_false _ g4.1, bool_ne_false _ g4.2.1,
            bool_ne_false _ g4.2.2⟩
        · intro _
          rfl

theorem checkOptionsTail_error_code (o : ZWaveOptions) (err : ZWaveErr)
    (h : checkOptionsTail o = .error err) :
    err.code = ZWaveErrorCodes.Driver_InvalidOptions := by
  obtain ⟨ts, atts, sk, cbs⟩ := o
  cases cbs with
  | none =>
      simp only [checkOptionsTail] at h
      split_ifs at h
      · exact error_code_eq h
      · exact error_code_eq h
      · exact error_code_eq h
  | some cb =>
      simp only [checkOptionsTail] at h
      split_ifs at h
      · exact error_code_eq h
      · exact error_code_eq h
      · exact error_code_eq h
      · exact error_code_eq h

/-- C9 (amended): `checkOptions` accepts exactly the option sets within
the ranges it checks — in particular `timeouts.response` outside 500..20000
is rejected, every provided security key must have exactly 16 bytes and be
distinct from all other provided keys — and every rejection carries
`Driver_InvalidOptions`; but the checked ranges fall short of the
documented ones by exactly one row: `attempts.openSerialPort ≥ 1` is
documented yet never validated. -/
theorem checkOptions_ok_iff_checked (o : ZWaveOptions) :
    (checkOptions o = .ok () ↔ optionsWithinCheckedRanges o)
    ∧ (optionsWithinDocumentedRanges o ↔
        optionsWithinCheckedRanges o ∧ 1 ≤ o.attempts.openSerialPort)
    ∧ ∀ err, checkOptions o = .error err →
        err.code = ZWaveErrorCodes.Driver_InvalidOptions := by
  have hmax : MAX_SEND_ATTEMPTS = 5 := rfl
  obtain ⟨⟨ack, byte, response, report, nonce, sdc, sas⟩,
    ⟨aosp, actrl, asd, ani⟩, sk, cbs⟩ := o
  refine ⟨?_, ?_, ?_⟩
  · simp only [checkOptions, optionsWithinCheckedRanges]
    split_ifs with g1 g2 g3 g4 g5 g6 g7
    · constructor
      · intro h
        exact absurd h (by simp)
      · rintro ⟨k1, -⟩
        exfalso
        omega
    · constructor
      · intro h
        exact absurd h (by simp)
      · rintro ⟨-, k2, -⟩
        exfalso
        omega
    · constructor
      · intro h
        exact absurd h (by simp)
      · rintro ⟨-, -, k3, k4, -⟩
        exfalso
        rcases g3 with g | g <;> omega
    · constructor
      · intro h
        exact absurd h (by simp)
      · rintro ⟨-, -, -, -, k5, k6, -⟩
        exfalso
        rcases g4 with g | g <;> omega
    · constructor
      · intro h
        exact absurd h (by simp)
      · rintro ⟨-, -, -, -, -, -, k7, k8, -⟩
        exfalso
        rcases g5 with g | g <;> omega
    · constructor
      · intro h
        exact absurd h (by simp)
      · rintro ⟨-, -, -, -, -, -, -, -, k9, -⟩
        exfalso
        omega
    · constructor
      · intro h
        exact absurd h (by simp)
      · rintro ⟨-, -, -, -, -, -, -, -, -, k10, k11, -⟩
        exfalso
        rcases g7 with g | g <;> omega
    · simp only [not_or, not_lt] at g1 g2 g3 g4 g5 g6 g7
      cases sk with
      | none =>
          constructor
          · intro h
            have h2 : checkOptionsTail
                ⟨⟨ack, byte, response, report, nonce, sdc, sas⟩,
                  ⟨aosp, actrl, asd, ani⟩, none, cbs⟩ = Except.ok () := h
            obtain ⟨t1, t2, t3, t4, t5, t6, tcb⟩ :=
              (checkOptionsTail_ok_iff _).mp h2
            refine ⟨by omega, by omega, by omega, by omega, by omega,
              by omega, by omega, by omega, by omega, by omega, by omega,
              ?_, t1, t2, t3, t4, t5, t6, tcb⟩
            intro ks2 hks2
            exact Option.noConfusion hks2
          · rintro ⟨-, -, -, -, -, -, -, -, -, -, -, -,
              t1, t2, t3, t4, t5, t6, tcb⟩
            show checkOptionsTail _ = Except.ok ()
            exact (checkOptionsTail_ok_iff _).mpr ⟨t1, t2, t3, t4, t5, t6, tcb⟩
      | some keys =>
          constructor
          · intro h
            have h2 : (checkSecurityKeys [] keys).bind
                (fun _ => checkOptionsTail
                  ⟨⟨ack, byte, response, report, nonce, sdc, sas⟩,
                    ⟨aosp, actrl, asd, ani⟩, some keys, cbs⟩) = Except.ok () := h
            cases hks : checkSecurityKeys [] keys with
            | ok u =>
                cases u
                rw [hks] at h2
                obtain ⟨kl, kp, -⟩ :=
                  (checkSecurityKeys_ok_iff [] keys).mp hks
                have h3 : checkOptionsTail
                    ⟨⟨ack, byte, response, report, nonce, sdc, sas⟩,
                      ⟨aosp, actrl, asd, ani⟩, some keys, cbs⟩ = Except.ok () := h2
                obtain ⟨t1, t2, t3, t4, t5, t6, tcb⟩ :=
                  (checkOptionsTail_ok_iff _).mp h3
                refine ⟨by omega, by omega, by omega, by omega, by omega,
                  by omega, by omega, by omega, by omega, by omega, by omega,
                  ?_, t1, t2, t3, t4, t5, t6, tcb⟩
                intro ks2 hks2
                cases hks2
                exact ⟨kl, kp⟩
            | error e =>
                rw [hks] at h2
                exact absurd h2 (by simp [Except.bind])
          · rintro ⟨-, -, -, -, -, -, -, -, -, -, -, hkeysAll,
              t1, t2, t3, t4, t5, t6, tcb⟩
            obtain ⟨kl, kp⟩ := hkeysAll keys rfl
            have hok : checkSecurityKeys [] keys = .ok () :=
              (checkSecurityKeys_ok_iff [] keys).mpr ⟨kl, kp, by simp⟩
            show (checkSecurityKeys [] keys).bind _ = Except.ok ()
            rw [hok]
            show checkOptionsTail _ = Except.ok ()
            exact (checkOptionsTail_ok_iff _).mpr
              ⟨t1, t2, t3, t4, t5, t6, tcb⟩
  · simp only [optionsWithinDocumentedRanges, optionsWithinCheckedRanges]
    constructor
    · rintro ⟨h1, h2, h3, h4, h5, h6, h7, h8, h9, h10, h11, hosp, hkeys,
        h12, h13, h14, h15, h16, h17, hcb⟩
      exact ⟨⟨h1, h2, h3, h4, h5, h6, h7, h8, h9, h10, h11, hkeys,
        h12, h13, h14, h15, h16, h17, hcb⟩, hosp⟩
    · rintro ⟨⟨h1, h2, h3, h4, h5, h6, h7, h8, h9, h10, h11, hkeys,
        h12, h13, h14, h15, h16, h17, hcb⟩, hosp⟩
      exact ⟨h1, h2, h3, h4, h5, h6, h7, h8, h9, h10, h11, hosp, hkeys,
        h12, h13, h14, h15, h16, h17, hcb⟩
  · intro err herr
    simp only [checkOptions] at herr
    split_ifs at herr
    · exact error_code_eq herr
    · exact error_code_eq herr
    · exact error_code_eq herr
    · exact error_code_eq herr
    · exact error_code_eq herr
    · exact error_code_eq herr
    · exact error_code_eq herr
    · cases sk with
      | none => exact checkOptionsTail_error_code _ err herr
      | some keys =>
          have herr2 : (checkSecurityKeys [] keys).bind
              (fun _ => checkOptionsTail
                ⟨⟨ack, byte, response, report, nonce, sdc, sas⟩,
                  ⟨aosp, actrl, asd, ani⟩, some keys, cbs⟩) = Except.error err := herr
          cases hks : checkSecurityKeys [] keys with
          | ok u =>
              cases u
              rw [hks] at herr2
              exact checkOptionsTail_error_code _ err herr2
          | error e =>
              rw [hks] at herr2
              have h2 : (Except.error e : Except ZWaveErr Unit)
                  = Except.error err := herr2
              injection h2 with h3
              rw [← h3]
              exact checkSecurityKeys_error_code [] keys e hks

/-- A fully in-range option set: the documented defaults
(`defaultOptions`, Driver.ts:211-247). -/
def defaultDriverOptions : ZWaveOptions :=
  { timeouts :=
      { ack := 1000, byte := 150, response := 10000, report := 1000
        nonce := 5000, sendDataCallback := 65000, serialAPIStarted := 5000 }
    attempts :=
      { openSerialPort := 10, controller := 3, sendData := 3
        nodeInterview := 5 }
    securityKeys := none
    inclusionUserCallbacks := none }

/-- Witness for `checkOptions_ok_iff_checked`: the default options
validate. -/
theorem checkOptions_ok_iff_checked_witness :
    checkOptions defaultDriverOptions = .ok () :=
  (checkOptions_ok_iff_checked defaultDriverOptions).1.mpr
    (by simp [optionsWithinCheckedRanges, defaultDriverOptions,
      MAX_SEND_ATTEMPTS])

/-- The default driver options except that `attempts.openSerialPort` is 0,
below its documented minimum of 1. -/
def zeroOpenSerialPortOptions : ZWaveOptions :=
  { timeouts :=
      { ack := 1000, byte := 150, response := 10000, report := 1000
        nonce := 5000, sendDataCallback := 65000, serialAPIStarted := 5000 }
    attempts :=
      { openSerialPort := 0, controller := 3, sendData := 3
        nodeInterview := 5 }
    securityKeys := none
    inclusionUserCallbacks := none }

/-- C9, as stated, fails: `checkOptions` never validates
`attempts.openSerialPort`, whose documented range is ≥ 1 — an options
object with `openSerialPort = 0` is out of a documented range yet passes
validation without any `InvalidOptions` error. -/
theorem checkOptions_accepts_zero_openSerialPort :
    checkOptions zeroOpenSerialPortOptions = .ok ()
    ∧ ¬optionsWithinDocumentedRanges zeroOpenSerialPortOptions := by
  constructor
  · rfl
  · rintro ⟨-, -, -, -, -, -, -, -, -, -, -, hosp, -⟩
    have h0 : (1 : Int) ≤ 0 := hosp
    omega

/-! ## Sending messages to dead nodes

The gate at the top of `Driver.sendMessage` (Driver.ts:3841-3853). -/

inductive SendGateResult where
  | proceed (pinged : Bool)
  | rejected (code : ZWaveErrorCodes)
  deriving DecidableEq

/-- The dead-node gate of `Driver.sendMessage` (Driver.ts:3841-3853): for a
node query or CC container, the addressed node is looked up; when the
message is not a ping and the node's status is `Dead`, the node is pinged
first — a failed ping throws `Controller_MessageDropped`, a successful one
lets the send continue. `pingSucceeds` is the result of
`await node.ping()`. -/
def sendMessageDeadNodeGate (msg : Message) (node : Option NodeState)
    (pingSucceeds : Bool) : SendGateResult :=
  if isNodeQuery msg || isCommandClassContainer msg then
    if !messageIsPing msg
        && (node.map NodeState.status == some NodeStatus.Dead) then
      if pingSucceeds then .proceed true
      else .rejected ZWaveErrorCodes.Controller_MessageDropped
    else .proceed false
  else .proceed false

/-- C10: for a message addressing a known `Dead` node, a ping message is
never rejected for the node being dead; a non-ping message is gated behind
a ping of the node — only a failed ping makes `sendMessage` throw
`Controller_MessageDropped`, and a successful ping lets the send proceed. -/
theorem sendMessage_pings_dead_node (msg : Message) (node : NodeState)
    (pingSucceeds : Bool)
    (htarget : isNodeQuery msg = true ∨ isCommandClassContainer msg = true)
    (hdead : node.status = NodeStatus.Dead) :
    (messageIsPing msg = true →
      sendMessageDeadNodeGate msg (some node) pingSucceeds
        = SendGateResult.proceed false)
    ∧ (messageIsPing msg = false →
      sendMessageDeadNodeGate msg (some node) pingSucceeds
        = (if pingSucceeds then SendGateResult.proceed true
           else SendGateResult.rejected
             ZWaveErrorCodes.Controller_MessageDropped)) := by
  constructor
  · intro hping
    rcases htarget with h | h <;>
      simp [sendMessageDeadNodeGate, h, hping]
  · intro hping
    rcases htarget with h | h <;>
      cases pingSucceeds <;>
      simp [sendMessageDeadNodeGate, h, hping, hdead]

/-- A dead, mains-powered node with id 7. -/
def deadNode7 : NodeState := { id := 7, canSleep := false, status := NodeStatus.Dead }

/-- A non-ping SendData message addressed to node 7. -/
def basicSetMessage : Message :=
  { nodeId := some 7, kind := .sendDataRequest, command := .otherCC 1
    maxSendAttempts := 3 }

/-- Witness for `sendMessage_pings_dead_node`: a non-ping message to the
dead node 7 whose ping fails is rejected with `Controller_MessageDropped`. -/
theorem sendMessage_pings_dead_node_witness :
    sendMessageDeadNodeGate basicSetMessage (some deadNode7) false
      = SendGateResult.rejected ZWaveErrorCodes.Controller_MessageDropped := by
  have h := (sendMessage_pings_dead_node basicSetMessage deadNode7 false
    (Or.inl rfl) rfl).2 rfl
  simpa using h

end ZWaveDriver
